import Mathlib

/-!
# Verification of the ucx-py completion bridge (`src/ucp/send_recv.py`)

Shallow embedding of the four entry points (`tag_send`, `tag_recv`,
`stream_send`, `stream_recv`) and their completion callbacks.

Modelling decisions, all driven by the source:

* An `asyncio` future is a single-assignment cell `FutureState` with states
  pending / result / exception.  `set_result` / `set_exception` succeed only
  on a pending future and raise `InvalidStateError` otherwise, exactly the
  CPython `asyncio.Future` semantics the source relies on.
* Python exceptions that flow through this module are modelled by `PyExn`:
  `UCXError msg` is `exceptions.UCXError(msg)`, `invalidStateError` is
  `asyncio.InvalidStateError`, and `otherError info` stands for any other
  exception object delivered by the native layer.
* `asyncio.get_event_loop().is_closed()` is a read of ambient scheduler
  state at callback-invocation time; it is passed to each callback as the
  explicit boolean `loop_closed`.
* A callback either returns normally with the future's new state
  (`Except.ok`) or raises (`Except.error`).
* `pending_msg` is a Python dict, embedded as an association list `Dict`
  with Python's assignment (`Dict.set`) and lookup (`Dict.get`).
* The native issue primitives (`ucx_api.ucx_tag_send`, `worker.tag_recv`,
  `ucx_api.ucx_stream_send`, `ucx_api.ucx_stream_recv`) live outside
  `src/`.  Modelled from the spec: each returns an opaque in-flight handle
  immediately and invokes the callback exactly once later; an issue
  primitive is therefore represented by the handle `req` it returns, which
  the entry point receives as an argument.  `asyncio.get_event_loop
  ().create_future()` returns a fresh future object, represented by the
  identity `fid` the entry point receives as an argument.
-/

/-- Python exception objects that appear in `send_recv.py`. -/
inductive PyExn where
  | UCXError (msg : String)
  | invalidStateError
  | otherError (info : String)
deriving DecidableEq, Repr

/-- State of an `asyncio` future: a single-assignment result cell. -/
inductive FutureState where
  | pending
  | result (v : Bool)
  | exception (e : PyExn)
deriving DecidableEq, Repr

deriving instance DecidableEq for Except

/-- `exceptions.UCXError(msg)` as used by the receive callbacks. -/
def exceptions.UCXError (msg : String) : PyExn := PyExn.UCXError msg

/-- `asyncio.Future.set_result`: assigns on a pending future, raises
`InvalidStateError` otherwise. -/
def FutureState.set_result (f : FutureState) (v : Bool) :
    Except PyExn FutureState :=
  match f with
  | .pending => .ok (.result v)
  | _ => .error .invalidStateError

/-- `asyncio.Future.set_exception`: assigns on a pending future, raises
`InvalidStateError` otherwise. -/
def FutureState.set_exception (f : FutureState) (e : PyExn) :
    Except PyExn FutureState :=
  match f with
  | .pending => .ok (.exception e)
  | _ => .error .invalidStateError

/-- Python truthiness of an optional string (`if log_str`): `None` and the
empty string are falsy. -/
def pyTruthy : Option String → Bool
  | none => false
  | some s => !s.isEmpty

/-- `send_cb` nested in `tag_send` (src/ucp/send_recv.py lines 13-19). -/
def tag_send.send_cb (loop_closed : Bool) (exception : Option PyExn)
    (future : FutureState) : Except PyExn FutureState :=
  if loop_closed then .ok future
  else match exception with
    | some e => future.set_exception e
    | none => future.set_result true

/-- `recv_cb` nested in `tag_recv` (src/ucp/send_recv.py lines 33-46). -/
def tag_recv.recv_cb (loop_closed : Bool) (exception : Option PyExn)
    (received : Nat) (future : FutureState) (expected_receive : Nat) :
    Except PyExn FutureState :=
  if loop_closed then .ok future
  else match exception with
    | some e => future.set_exception e
    | none =>
      if received ≠ expected_receive then
        let log_str : Option String := none
        let msg := "Comm Error" ++
          (if pyTruthy log_str then " \x22" ++ log_str.getD "" ++ "\x22:"
           else ":") ++ " "
        let msg := msg ++ ("length mismatch: " ++ Nat.repr received ++
          " (got) != " ++ Nat.repr expected_receive ++ " (expected)")
        future.set_exception (exceptions.UCXError msg)
      else
        future.set_result true

/-- `send_cb` nested in `stream_send` (src/ucp/send_recv.py lines 58-64). -/
def stream_send.send_cb (loop_closed : Bool) (exception : Option PyExn)
    (future : FutureState) : Except PyExn FutureState :=
  if loop_closed then .ok future
  else match exception with
    | some e => future.set_exception e
    | none => future.set_result true

/-- `recv_cb` nested in `stream_recv` (src/ucp/send_recv.py lines 78-91). -/
def stream_recv.recv_cb (loop_closed : Bool) (exception : Option PyExn)
    (received : Nat) (future : FutureState) (expected_receive : Nat) :
    Except PyExn FutureState :=
  if loop_closed then .ok future
  else match exception with
    | some e => future.set_exception e
    | none =>
      if received ≠ expected_receive then
        let log_str : Option String := none
        let msg := "Comm Error" ++
          (if pyTruthy log_str then " \x22" ++ log_str.getD "" ++ "\x22:"
           else ":") ++ " "
        let msg := msg ++ ("length mismatch: " ++ Nat.repr received ++
          " (got) != " ++ Nat.repr expected_receive ++ " (expected)")
        future.set_exception (exceptions.UCXError msg)
      else
        future.set_result true

/-- A value stored in a `pending_msg` dict: either the future object
(identified by the id of the created future) or the opaque in-flight
request handle returned by the native issue primitive. -/
inductive DictVal where
  | future (fid : Nat)
  | request (req : Nat)
deriving DecidableEq, Repr

/-- A Python dict with string keys, as an association list without
duplicate-key semantics surprises: `set` overwrites in place or appends. -/
def Dict := List (String × DictVal)
deriving DecidableEq, Repr

/-- Python dict assignment `d[k] = v`. -/
def Dict.set : Dict → String → DictVal → Dict
  | [], k, v => [(k, v)]
  | (k0, v0) :: rest, k, v =>
    if k0 = k then (k, v) :: rest
    else (k0, v0) :: Dict.set rest k v

/-- Python dict lookup `d.get(k)`. -/
def Dict.get : Dict → String → Option DictVal
  | [], _ => none
  | (k0, v0) :: rest, k => if k0 = k then some v0 else Dict.get rest k

/-- What a send entry point leaves behind: the future returned to the
caller (`ret`), the native in-flight handle (`req`), and the
`pending_msg` dict as the entry point left it. -/
structure SendIssue where
  ret : Nat
  req : Nat
  pending_msg : Option Dict
deriving DecidableEq, Repr

/-- What a receive entry point leaves behind: additionally records the
`expected_receive` count captured in the callback argument tuple
`(ret, nbytes)` at issue time. -/
structure RecvIssue where
  ret : Nat
  expected_receive : Nat
  req : Nat
  pending_msg : Option Dict
deriving DecidableEq, Repr

/-- `tag_send` entry point (src/ucp/send_recv.py lines 11-29).  `fid` is
the fresh future returned by `create_future()` and `req` the handle
returned by `ucx_api.ucx_tag_send` (both external, see the header). -/
def tag_send (ucp_endpoint buffer nbytes tag : Nat) (fid req : Nat)
    (pending_msg : Option Dict) : SendIssue :=
  let ret := fid
  let pm := match pending_msg with
    | none => none
    | some d => some ((d.set "future" (.future ret)).set
        "ucp_request" (.request req))
  ⟨ret, req, pm⟩

/-- `tag_recv` entry point (src/ucp/send_recv.py lines 31-54).  The
callback argument tuple is `(ret, nbytes)`, so `expected_receive` is the
`nbytes` argument. -/
def tag_recv (worker buffer nbytes tag : Nat) (fid req : Nat)
    (pending_msg : Option Dict) : RecvIssue :=
  let ret := fid
  let pm := match pending_msg with
    | none => none
    | some d => some ((d.set "future" (.future ret)).set
        "ucp_request" (.request req))
  ⟨ret, nbytes, req, pm⟩

/-- `stream_send` entry point (src/ucp/send_recv.py lines 56-74). -/
def stream_send (ucp_endpoint buffer nbytes : Nat) (fid req : Nat)
    (pending_msg : Option Dict) : SendIssue :=
  let ret := fid
  let pm := match pending_msg with
    | none => none
    | some d => some ((d.set "future" (.future ret)).set
        "ucp_request" (.request req))
  ⟨ret, req, pm⟩

/-- `stream_recv` entry point (src/ucp/send_recv.py lines 76-101).  The
callback argument tuple is `(ret, nbytes)`, so `expected_receive` is the
`nbytes` argument. -/
def stream_recv (ucp_endpoint buffer nbytes : Nat) (fid req : Nat)
    (pending_msg : Option Dict) : RecvIssue :=
  let ret := fid
  let pm := match pending_msg with
    | none => none
    | some d => some ((d.set "future" (.future ret)).set
        "ucp_request" (.request req))
  ⟨ret, nbytes, req, pm⟩

/-- Key-hit law for dict assignment. -/
theorem Dict.get_set_eq (d : Dict) (k : String) (v : DictVal) :
    (d.set k v).get k = some v := by
  induction d with
  | nil => simp [Dict.set, Dict.get]
  | cons hd tl ih =>
    obtain ⟨k0, v0⟩ := hd
    by_cases h : k0 = k <;> simp [Dict.set, Dict.get, h, ih]

/-- Frame law for dict assignment at other keys. -/
theorem Dict.get_set_ne (d : Dict) (k k' : String) (v : DictVal)
    (h : k' ≠ k) : (d.set k v).get k' = d.get k' := by
  induction d with
  | nil => simp [Dict.set, Dict.get, Ne.symm h]
  | cons hd tl ih =>
    obtain ⟨k0, v0⟩ := hd
    by_cases h0 : k0 = k
    · subst h0
      simp [Dict.set, Dict.get, Ne.symm h]
    · simp [Dict.set, Dict.get, h0, ih]

/-- Lookup through an optional `pending_msg` dict. -/
def pmGet (od : Option Dict) (k : String) : Option DictVal :=
  match od with
  | none => none
  | some d => d.get k

theorem str_append_assoc (a b c : String) : a ++ b ++ c = a ++ (b ++ c) := by
  apply String.ext
  simp [String.data_append]

/-- Folding the literal pieces of the length-mismatch message produced by the
receive callbacks into the single flat string of the documentation. -/
theorem comm_msg_fold (r e : Nat) :
    ("Comm Error" ++ ":" ++ " ") ++
      ("length mismatch: " ++ Nat.repr r ++ " (got) != " ++ Nat.repr e ++
        " (expected)") =
    "Comm Error: length mismatch: " ++ Nat.repr r ++ " (got) != " ++
      Nat.repr e ++ " (expected)" := by
  have h4 : (("Comm Error" ++ ":") ++ " ") ++ "length mismatch: " =
      "Comm Error: length mismatch: " := by decide
  simp only [← str_append_assoc]
  rw [h4]

/-- Shared shape lemma: on an open loop, no delivered exception, and a
byte count that differs from the expected one, both receive callbacks
resolve the pending future to the flat-form `UCXError` message. -/
theorem recv_cb_mismatch (received expected : Nat) (h : received ≠ expected) :
    tag_recv.recv_cb false none received .pending expected =
      .ok (.exception (.UCXError ("Comm Error: length mismatch: " ++
        Nat.repr received ++ " (got) != " ++ Nat.repr expected ++
        " (expected)"))) ∧
    stream_recv.recv_cb false none received .pending expected =
      .ok (.exception (.UCXError ("Comm Error: length mismatch: " ++
        Nat.repr received ++ " (got) != " ++ Nat.repr expected ++
        " (expected)"))) := by
  constructor <;>
  · simp only [tag_recv.recv_cb, stream_recv.recv_cb, if_neg, h,
      Bool.false_eq_true, pyTruthy, Bool.if_false_left, ite_false,
      if_false, ne_eq, not_false_eq_true, if_true, ite_true,
      FutureState.set_exception, exceptions.UCXError]
    rw [comm_msg_fold]

/-- C1: For every receive completion (tag_recv or stream_recv) delivered
without an error indicator while the event loop is open: the expected
byte count captured at issue time is the `nbytes` argument; if the
delivered byte count equals it the Awaitable resolves to success, and if
it differs the Awaitable resolves to a length-mismatch error carrying
both the received and the expected counts. -/
theorem recv_resolution_matches_expected_length
    (worker buffer nbytes tag fid req : Nat) (pm : Option Dict)
    (received : Nat) :
    (tag_recv worker buffer nbytes tag fid req pm).expected_receive =
      nbytes ∧
    (stream_recv worker buffer nbytes fid req pm).expected_receive =
      nbytes ∧
    (received = nbytes →
      tag_recv.recv_cb false none received .pending nbytes =
        .ok (.result true) ∧
      stream_recv.recv_cb false none received .pending nbytes =
        .ok (.result true)) ∧
    (received ≠ nbytes →
      tag_recv.recv_cb false none received .pending nbytes =
        .ok (.exception (.UCXError ("Comm Error: length mismatch: " ++
          Nat.repr received ++ " (got) != " ++ Nat.repr nbytes ++
          " (expected)"))) ∧
      stream_recv.recv_cb false none received .pending nbytes =
        .ok (.exception (.UCXError ("Comm Error: length mismatch: " ++
          Nat.repr received ++ " (got) != " ++ Nat.repr nbytes ++
          " (expected)")))) := by
  refine ⟨rfl, rfl, ?_, ?_⟩
  · rintro rfl
    constructor <;> simp [tag_recv.recv_cb, stream_recv.recv_cb,
      FutureState.set_result]
  · intro h
    exact recv_cb_mismatch received nbytes h

/-- C1 witness: at `nbytes = 100`, delivering `(None, 100)` resolves to
success and delivering `(None, 80)` resolves to the length-mismatch
error carrying 80 (got) and 100 (expected). -/
theorem recv_resolution_matches_expected_length_witness :
    tag_recv.recv_cb false none 100 .pending 100 = .ok (.result true) ∧
    tag_recv.recv_cb false none 80 .pending 100 =
      .ok (.exception (.UCXError ("Comm Error: length mismatch: " ++
        Nat.repr 80 ++ " (got) != " ++ Nat.repr 100 ++ " (expected)"))) :=
  ⟨((recv_resolution_matches_expected_length 0 0 100 0 0 0 none
      100).2.2.1 rfl).1,
   ((recv_resolution_matches_expected_length 0 0 100 0 0 0 none
      80).2.2.2 (by decide)).1⟩

/-- C2 counterexample: invoking `tag_send`'s completion adapter a second
time, after the Awaitable is already resolved (state `result true`) and
while the event loop is open, raises `asyncio.InvalidStateError` —
refuting the claim that a second invocation never raises. -/
theorem second_invocation_raises_invalid_state :
    tag_send.send_cb false none (.result true) =
      .error .invalidStateError := rfl

/-- C2 amended: a second invocation of any of the four completion
adapters on an already-resolved Awaitable never changes the resolved
outcome — the Awaitable still resolves at most once — but it is not
silent: while the event loop is open the underlying
`set_result`/`set_exception` raises `asyncio.InvalidStateError`; only
when the loop is closed does the adapter return without effect. -/
theorem resolved_future_never_overwritten (exception : Option PyExn)
    (received expected : Nat) (f : FutureState) (h : f ≠ .pending) :
    tag_send.send_cb true exception f = .ok f ∧
    tag_send.send_cb false exception f = .error .invalidStateError ∧
    stream_send.send_cb true exception f = .ok f ∧
    stream_send.send_cb false exception f = .error .invalidStateError ∧
    tag_recv.recv_cb true exception received f expected = .ok f ∧
    tag_recv.recv_cb false exception received f expected =
      .error .invalidStateError ∧
    stream_recv.recv_cb true exception received f expected = .ok f ∧
    stream_recv.recv_cb false exception received f expected =
      .error .invalidStateError := by
  cases f with
  | pending => exact absurd rfl h
  | result v =>
    cases exception <;>
      by_cases hre : received = expected <;>
      simp [tag_send.send_cb, stream_send.send_cb, tag_recv.recv_cb,
        stream_recv.recv_cb, FutureState.set_result,
        FutureState.set_exception, hre]
  | exception e =>
    cases exception <;>
      by_cases hre : received = expected <;>
      simp [tag_send.send_cb, stream_send.send_cb, tag_recv.recv_cb,
        stream_recv.recv_cb, FutureState.set_result,
        FutureState.set_exception, hre]

/-- C2 amended witness: concrete second delivery (no exception, 80 of
100 bytes) against a future already resolved to `result true`. -/
theorem resolved_future_never_overwritten_witness :
    tag_send.send_cb true none (.result true) = .ok (.result true) ∧
    tag_send.send_cb false none (.result true) =
      .error .invalidStateError ∧
    stream_send.send_cb true none (.result true) = .ok (.result true) ∧
    stream_send.send_cb false none (.result true) =
      .error .invalidStateError ∧
    tag_recv.recv_cb true none 80 (.result true) 100 =
      .ok (.result true) ∧
    tag_recv.recv_cb false none 80 (.result true) 100 =
      .error .invalidStateError ∧
    stream_recv.recv_cb true none 80 (.result true) 100 =
      .ok (.result true) ∧
    stream_recv.recv_cb false none 80 (.result true) 100 =
      .error .invalidStateError :=
  resolved_future_never_overwritten none 80 100 (.result true)
    (by decide)

/-- C3: for every completion adapter invocation (any of the four kinds,
any outcome), if the owning event loop is already closed at delivery
time the adapter returns without resolving the Awaitable and without
raising: the future state is returned unchanged and no exception
escapes. -/
theorem closed_loop_silently_discards (exception : Option PyExn)
    (received expected : Nat) (f : FutureState) :
    tag_send.send_cb true exception f = .ok f ∧
    stream_send.send_cb true exception f = .ok f ∧
    tag_recv.recv_cb true exception received f expected = .ok f ∧
    stream_recv.recv_cb true exception received f expected = .ok f :=
  ⟨rfl, rfl, rfl, rfl⟩

/-- C4: for every completion delivered with an error indicator while the
event loop is open (any of the four kinds), the Awaitable resolves to
exactly the delivered error object, content unmodified — the adapters
pass the native substrate's failure through without interpreting or
altering it. -/
theorem native_error_passthrough (e : PyExn) (received expected : Nat) :
    tag_send.send_cb false (some e) .pending = .ok (.exception e) ∧
    stream_send.send_cb false (some e) .pending = .ok (.exception e) ∧
    tag_recv.recv_cb false (some e) received .pending expected =
      .ok (.exception e) ∧
    stream_recv.recv_cb false (some e) received .pending expected =
      .ok (.exception e) :=
  ⟨rfl, rfl, rfl, rfl⟩

/-- C5: the receive adapters check the error indicator before the
byte-count comparison: with the loop open and an error indicator
present, the Awaitable resolves to that error and no length-mismatch
error is produced, even when the delivered byte count differs from the
expected one. -/
theorem error_checked_before_length_comparison (e : PyExn)
    (received expected : Nat) (h : received ≠ expected) :
    tag_recv.recv_cb false (some e) received .pending expected =
      .ok (.exception e) ∧
    stream_recv.recv_cb false (some e) received .pending expected =
      .ok (.exception e) :=
  ⟨rfl, rfl⟩

/-- C5 witness: a transport fault delivered together with a short read
(80 of 100 bytes) resolves to the fault, not to a length mismatch. -/
theorem error_checked_before_length_comparison_witness :
    tag_recv.recv_cb false (some (.otherError "TransferFault")) 80
      .pending 100 = .ok (.exception (.otherError "TransferFault")) ∧
    stream_recv.recv_cb false (some (.otherError "TransferFault")) 80
      .pending 100 = .ok (.exception (.otherError "TransferFault")) :=
  error_checked_before_length_comparison (.otherError "TransferFault")
    80 100 (by decide)

/-- C6: for every call to any of the four entry points with a
`pending_msg` supplied, when the entry point returns the record contains
under `'ucp_request'` exactly the in-flight handle returned by the
native issue primitive and under `'future'` a reference to the very same
Awaitable the entry point returns to the caller (`ret`). -/
theorem pending_record_contains_handle_and_same_future
    (ucp_endpoint worker buffer nbytes tag fid req : Nat) (d : Dict) :
    pmGet (tag_send ucp_endpoint buffer nbytes tag fid req
        (some d)).pending_msg "future" =
      some (.future (tag_send ucp_endpoint buffer nbytes tag fid req
        (some d)).ret) ∧
    pmGet (tag_send ucp_endpoint buffer nbytes tag fid req
        (some d)).pending_msg "ucp_request" = some (.request req) ∧
    pmGet (tag_recv worker buffer nbytes tag fid req
        (some d)).pending_msg "future" =
      some (.future (tag_recv worker buffer nbytes tag fid req
        (some d)).ret) ∧
    pmGet (tag_recv worker buffer nbytes tag fid req
        (some d)).pending_msg "ucp_request" = some (.request req) ∧
    pmGet (stream_send ucp_endpoint buffer nbytes fid req
        (some d)).pending_msg "future" =
      some (.future (stream_send ucp_endpoint buffer nbytes fid req
        (some d)).ret) ∧
    pmGet (stream_send ucp_endpoint buffer nbytes fid req
        (some d)).pending_msg "ucp_request" = some (.request req) ∧
    pmGet (stream_recv ucp_endpoint buffer nbytes fid req
        (some d)).pending_msg "future" =
      some (.future (stream_recv ucp_endpoint buffer nbytes fid req
        (some d)).ret) ∧
    pmGet (stream_recv ucp_endpoint buffer nbytes fid req
        (some d)).pending_msg "ucp_request" = some (.request req) := by
  have hk : ("future" : String) ≠ "ucp_request" := by decide
  refine ⟨?_, ?_, ?_, ?_, ?_, ?_, ?_, ?_⟩ <;>
    simp [tag_send, tag_recv, stream_send, stream_recv, pmGet,
      Dict.get_set_eq, Dict.get_set_ne _ _ _ _ hk]

/-- C7: for every send completion delivered without an error indicator
while the event loop is open, the Awaitable resolves to success; and the
send adapters never produce a length-mismatch error: any exception a
send adapter resolves with is either the delivered one or was already in
the (unchanged) future — never synthesized locally.  (The send adapters
take no byte counts at all, so no byte-count comparison exists.) -/
theorem send_success_and_never_length_mismatch (lc : Bool)
    (exn : Option PyExn) (f fres : FutureState) :
    tag_send.send_cb false none .pending = .ok (.result true) ∧
    stream_send.send_cb false none .pending = .ok (.result true) ∧
    ((tag_send.send_cb lc exn f = .ok fres ∨
      stream_send.send_cb lc exn f = .ok fres) →
      fres = f ∨ fres = .result true ∨
        ∃ e, exn = some e ∧ fres = .exception e) := by
  refine ⟨rfl, rfl, ?_⟩
  have hone : tag_send.send_cb lc exn f = .ok fres →
      fres = f ∨ fres = .result true ∨
        ∃ e, exn = some e ∧ fres = .exception e := by
    cases lc with
    | true =>
      intro h
      left
      exact (Except.ok.injEq _ _ ▸ h).symm
    | false =>
      cases exn with
      | none =>
        cases f <;> intro h <;>
          simp_all [tag_send.send_cb, FutureState.set_result]
      | some e =>
        cases f <;> intro h <;>
          simp_all [tag_send.send_cb, FutureState.set_exception]
  rintro (h | h)
  · exact hone h
  · exact hone h

/-- C7 witness: concrete successful send delivery while the loop is
open. -/
theorem send_success_and_never_length_mismatch_witness :
    FutureState.result true = FutureState.pending ∨
    FutureState.result true = FutureState.result true ∨
    ∃ e, (none : Option PyExn) = some e ∧
      FutureState.result true = FutureState.exception e :=
  (send_success_and_never_length_mismatch false none .pending
    (.result true)).2.2 (Or.inl rfl)

/-- C8: the tag and stream completion adapters are pairwise
extensionally equal: the tag-send and stream-send callbacks agree at
every input, and the tag-receive and stream-receive callbacks agree at
every input, error messages included. -/
theorem tag_stream_adapters_extensionally_equal :
    (∀ (lc : Bool) (exn : Option PyExn) (f : FutureState),
      tag_send.send_cb lc exn f = stream_send.send_cb lc exn f) ∧
    (∀ (lc : Bool) (exn : Option PyExn) (received : Nat)
      (f : FutureState) (expected : Nat),
      tag_recv.recv_cb lc exn received f expected =
        stream_recv.recv_cb lc exn received f expected) :=
  ⟨fun _ _ _ => rfl, fun _ _ _ _ _ => rfl⟩

/-- C9: if `pending_msg` is `None` no record is written at all; if a
record is supplied the entry point writes the keys `'future'` and
`'ucp_request'` and leaves every other key of the record unchanged. -/
theorem pending_record_frame
    (ucp_endpoint worker buffer nbytes tag fid req : Nat) (d : Dict)
    (k : String) (h1 : k ≠ "future") (h2 : k ≠ "ucp_request") :
    (tag_send ucp_endpoint buffer nbytes tag fid req none).pending_msg =
      none ∧
    (tag_recv worker buffer nbytes tag fid req none).pending_msg =
      none ∧
    (stream_send ucp_endpoint buffer nbytes fid req none).pending_msg =
      none ∧
    (stream_recv ucp_endpoint buffer nbytes fid req none).pending_msg =
      none ∧
    pmGet (tag_send ucp_endpoint buffer nbytes tag fid req
      (some d)).pending_msg k = d.get k ∧
    pmGet (tag_recv worker buffer nbytes tag fid req
      (some d)).pending_msg k = d.get k ∧
    pmGet (stream_send ucp_endpoint buffer nbytes fid req
      (some d)).pending_msg k = d.get k ∧
    pmGet (stream_recv ucp_endpoint buffer nbytes fid req
      (some d)).pending_msg k = d.get k := by
  refine ⟨rfl, rfl, rfl, rfl, ?_, ?_, ?_, ?_⟩ <;>
    simp [tag_send, tag_recv, stream_send, stream_recv, pmGet,
      Dict.get_set_ne _ _ _ _ h1, Dict.get_set_ne _ _ _ _ h2]

/-- C9 witness: concrete record with an unrelated key `'log'`, preserved
across `tag_send` (and the other entry points) while `None` yields no
record. -/
theorem pending_record_frame_witness :
    (tag_send 1 2 3 4 5 6 none).pending_msg = none ∧
    pmGet (tag_send 1 2 3 4 5 6
      (some [("log", .request 9)])).pending_msg "log" =
      Dict.get [("log", DictVal.request 9)] "log" :=
  ⟨(pending_record_frame 1 0 2 3 4 5 6 [("log", .request 9)] "log"
      (by decide) (by decide)).1,
   (pending_record_frame 1 0 2 3 4 5 6 [("log", .request 9)] "log"
      (by decide) (by decide)).2.2.2.2.1⟩

/-- C10: every length-mismatch resolution in `tag_recv` or `stream_recv`
carries exactly the message
`Comm Error: length mismatch: R (got) != E (expected)` with the received
count printed first and the expected count second; the alternative
message branch guarded by `log_str` is unreachable because `log_str` is
always `None`, so the plain-colon form is the only one produced. -/
theorem mismatch_message_exact_form (received expected : Nat)
    (h : received ≠ expected) :
    tag_recv.recv_cb false none received .pending expected =
      .ok (.exception (.UCXError ("Comm Error: length mismatch: " ++
        Nat.repr received ++ " (got) != " ++ Nat.repr expected ++
        " (expected)"))) ∧
    stream_recv.recv_cb false none received .pending expected =
      .ok (.exception (.UCXError ("Comm Error: length mismatch: " ++
        Nat.repr received ++ " (got) != " ++ Nat.repr expected ++
        " (expected)"))) :=
  recv_cb_mismatch received expected h

/-- C10 witness: the concrete short read 80 of 100 yields the exact
message with 80 (got) first and 100 (expected) second. -/
theorem mismatch_message_exact_form_witness :
    tag_recv.recv_cb false none 80 .pending 100 =
      .ok (.exception (.UCXError ("Comm Error: length mismatch: " ++
        Nat.repr 80 ++ " (got) != " ++ Nat.repr 100 ++
        " (expected)"))) :=
  (mismatch_message_exact_form 80 100 (by decide)).1
